import Mathlib

/-!
Verification of the trading-signal-bot core against its natural-language
specification.  The Python source is shallowly embedded: pandas Series of
floats become `List (Option ℚ)` (an undefined/NaN cell is `none`), UTC
datetimes become integers (minutes or seconds since an arbitrary epoch),
dataclasses become structures, and the nondeterministic inputs of the
program (`uuid4`, `utc_now`, the Telegram transport) are threaded as
explicit oracle parameters.
-/

/- Batteries marks the `Rat` arithmetic operations `@[irreducible]`, which
blocks `decide`/`rfl` evaluation of the concrete fixtures below; restore the
default reducibility (the kernel re-checks every such proof regardless). -/
set_option allowUnsafeReducibility true in
attribute [semireducible] Rat.mul Rat.add Rat.sub Rat.inv Rat.div Rat.ofScientific

namespace TradingSignalBot

/-! ## Data model (`models.py`) -/

inductive Direction
  | BUY
  | SELL
  deriving DecidableEq, Repr

def Direction.value : Direction → String
  | .BUY => "BUY"
  | .SELL => "SELL"

inductive Scenario
  | BUY_S1 | BUY_S2 | SELL_S1 | SELL_S2
  | BUY_M1 | SELL_M1
  | BUY_CHAIN | SELL_CHAIN | BUY_CHAIN_HP | SELL_CHAIN_HP
  | BUY_SUMMARY | SELL_SUMMARY
  deriving DecidableEq, Repr

def Scenario.value : Scenario → String
  | .BUY_S1 => "BUY_S1"
  | .BUY_S2 => "BUY_S2"
  | .SELL_S1 => "SELL_S1"
  | .SELL_S2 => "SELL_S2"
  | .BUY_M1 => "BUY_M1"
  | .SELL_M1 => "SELL_M1"
  | .BUY_CHAIN => "BUY_CHAIN"
  | .SELL_CHAIN => "SELL_CHAIN"
  | .BUY_CHAIN_HP => "BUY_CHAIN_HP"
  | .SELL_CHAIN_HP => "SELL_CHAIN_HP"
  | .BUY_SUMMARY => "BUY_SUMMARY"
  | .SELL_SUMMARY => "SELL_SUMMARY"

inductive TriggerMode
  | NORMAL
  | HIGH_PROBABILITY
  deriving DecidableEq, Repr

inductive PendingState
  | WAIT_M1_LWMA
  | WAIT_M1_STOCH
  deriving DecidableEq, Repr

/-- `IndicatorParams` from `models.py`; the zone bounds are `tuple[int, int]`. -/
structure IndicatorParams where
  lwma_fast : ℕ
  lwma_slow : ℕ
  stoch_k : ℕ
  stoch_d : ℕ
  stoch_slowing : ℕ
  buy_zone : ℤ × ℤ
  sell_zone : ℤ × ℤ
  deriving DecidableEq, Repr

/-- `Signal` from `models.py`.  Datetimes are integers, floats are rationals. -/
structure Signal where
  id : String
  symbol : String
  direction : Direction
  scenario : Scenario
  price : ℚ
  created_at_utc : ℤ
  m1_bar_time_utc : ℤ
  m15_bar_time_utc : Option ℤ := none
  m15_lwma_fast : Option ℚ := none
  m15_lwma_slow : Option ℚ := none
  m15_stoch_k : Option ℚ := none
  m15_stoch_d : Option ℚ := none
  m1_lwma_fast : Option ℚ := none
  m1_lwma_slow : Option ℚ := none
  m1_stoch_k : Option ℚ := none
  m1_stoch_d : Option ℚ := none
  matched_scenarios : Option (List Scenario) := none
  risk_stop_distance : Option ℚ := none
  risk_invalidation_price : Option ℚ := none
  risk_tp1_price : Option ℚ := none
  risk_tp2_price : Option ℚ := none
  deriving DecidableEq, Repr

/-- `PendingSetup` from `models.py`. -/
structure PendingSetup where
  symbol : String
  direction : Direction
  mode : TriggerMode
  state : PendingState
  m15_trigger_time_utc : ℤ
  last_updated_utc : ℤ
  m15_lwma_fast : ℚ
  m15_lwma_slow : ℚ
  m15_stoch_k : ℚ
  m15_stoch_d : ℚ
  deriving DecidableEq, Repr

/-! ## Indicator library: `indicators/lwma.py` -/

/-- Dot product of a window (oldest→newest) with weights `k, k+1, …`. -/
def dotWeights : List ℚ → ℕ → ℚ
  | [], _ => 0
  | x :: xs, k => x * k + dotWeights xs (k + 1)

/-- `weights.sum()` for `weights = 1..period` (the denominator in the code). -/
def weightsSum (period : ℕ) : ℚ :=
  ((List.range period).map (fun j => ((j + 1 : ℕ) : ℚ))).sum

/-- The window of `p` values of `s` ending at index `i` (oldest→newest). -/
def windowAt (s : List ℚ) (p i : ℕ) : List ℚ :=
  (s.drop (i + 1 - p)).take p

/-- One output cell of the rolling weighted average. -/
def lwmaCell (s : List ℚ) (p i : ℕ) : Option ℚ :=
  if i + 1 < p then none
  else some (dotWeights (windowAt s p i) 1 / weightsSum p)

/-- `calculate_lwma` from `indicators/lwma.py`: linear weights `1..period`
over each rolling window, oldest→newest; `period <= 0` raises. -/
def calculate_lwma (series : List ℚ) (period : ℤ) : Except String (List (Option ℚ)) :=
  if period ≤ 0 then .error "period must be positive"
  else .ok ((List.range series.length).map (lwmaCell series period.toNat))

/-- Rolling weighted average over a series that may contain undefined (NaN)
cells: a window containing an undefined cell, or an incomplete window,
produces an undefined output (pandas `rolling.apply` semantics). -/
def lwmaOptCell (s : List (Option ℚ)) (p i : ℕ) : Option ℚ :=
  if i + 1 < p then none
  else
    match ((s.drop (i + 1 - p)).take p).allSome with
    | none => none
    | some w => some (dotWeights w 1 / weightsSum p)

/-- `calculate_lwma` as used on in-memory indicator series (period known
positive, NaN-propagating). -/
def lwmaSeries (s : List (Option ℚ)) (p : ℕ) : List (Option ℚ) :=
  (List.range s.length).map (lwmaOptCell s p)

/-! ## Indicator library: `indicators/stochastic.py` -/

/-- Rolling minimum over `k_period` (undefined on incomplete windows). -/
def rollingMin (s : List ℚ) (p i : ℕ) : Option ℚ :=
  if i + 1 < p then none
  else ((s.drop (i + 1 - p)).take p).min?

/-- Rolling maximum over `k_period` (undefined on incomplete windows). -/
def rollingMax (s : List ℚ) (p i : ℕ) : Option ℚ :=
  if i + 1 < p then none
  else ((s.drop (i + 1 - p)).take p).max?

/-- Raw %K cell: `(close - lowest) / (highest - lowest) * 100`, with a flat
window (`highest == lowest`) mapped to 50. -/
def rawKCell (close : List ℚ) (kPeriod i : ℕ) : Option ℚ :=
  match rollingMin close kPeriod i, rollingMax close kPeriod i with
  | some lo, some hi =>
      if hi - lo ≠ 0 then some ((close.getD i 0 - lo) / (hi - lo) * 100)
      else some 50
  | _, _ => none

/-- `calculate_stochastic` from `indicators/stochastic.py`:
%K = LWMA(raw %K, slowing), %D = LWMA(%K, d_period). -/
def calculate_stochastic (close : List ℚ) (kPeriod dPeriod slowing : ℕ) :
    List (Option ℚ) × List (Option ℚ) :=
  let rawK := (List.range close.length).map (rawKCell close kPeriod)
  let percentK := lwmaSeries rawK slowing
  let percentD := lwmaSeries percentK dPeriod
  (percentK, percentD)

/-- `stoch_in_zone` from `indicators/stochastic.py`: inclusive band test. -/
def stoch_in_zone (kValue : ℚ) (zone : ℤ × ℤ) : Bool :=
  (zone.1 : ℚ) ≤ kValue ∧ kValue ≤ (zone.2 : ℚ)

/-! ## Cross detection: `_cross_at` in `strategy.py` -/

/-- `_cross_at(series_a, series_b, idx)`: (crossed_above, crossed_below);
both false when `idx < 1` or any of the four cells is undefined. -/
def crossAt (a b : List (Option ℚ)) (idx : ℕ) : Bool × Bool :=
  if idx < 1 then (false, false)
  else
    match a.getD (idx - 1) none, a.getD idx none, b.getD (idx - 1) none, b.getD idx none with
    | some prevA, some currA, some prevB, some currB =>
        (decide (prevA ≤ prevB ∧ currA > currB), decide (prevA ≥ prevB ∧ currA < currB))
    | _, _, _, _ => (false, false)

/-! ## Volatility: `indicators/volatility.py` (ATR) -/

/-- The true-range series: `max(high-low, |high-prevClose|, |low-prevClose|)`;
at index 0 there is no previous close and pandas' NaN-skipping row max
leaves `high - low`. -/
def trueRange (high low close : List ℚ) : List ℚ :=
  (List.range high.length).map fun i =>
    let hl := high.getD i 0 - low.getD i 0
    match i with
    | 0 => hl
    | j + 1 =>
        let pc := close.getD j 0
        max hl (max |high.getD i 0 - pc| |low.getD i 0 - pc|)

/-- `_wilders_smoothing`: seed at index `period-1` with the SMA of the first
`period` values, then `(prev*(period-1) + current)/period`.  Out of contract
(`period = 0` or fewer rows than `period`) every cell is undefined. -/
def wildersSmoothing (series : List ℚ) (period : ℕ) : List (Option ℚ) :=
  if period = 0 ∨ series.length < period then List.replicate series.length none
  else
    let seed := (series.take period).sum / period
    List.replicate (period - 1) none ++
      (List.scanl (fun acc x => (acc * (((period - 1 : ℕ)) : ℚ) + x) / (period : ℚ)) seed
        (series.drop period)).map some

/-- `calculate_atr` from `indicators/volatility.py`. -/
def calculate_atr (high low close : List ℚ) (period : ℕ) : List (Option ℚ) :=
  wildersSmoothing (trueRange high low close) period

/-! ## Strategy evaluator: `strategy.py`

`uuid4` and `utc_now` are nondeterministic in the source; they are threaded
here as an id oracle (`idGen`, indexed by the order in which the signals are
created) and a clock value (`now`).  The ADX regime filter
(`_passes_regime_filter`) is a pure predicate of the primary window whose
internals no claim depends on; its verdict is abstracted as the boolean
parameter `regimeOk`. -/

/-- One OHLC candle; `time` is the UTC open time in minutes. -/
structure Candle where
  time : ℤ
  open_ : ℚ
  high : ℚ
  low : ℚ
  close : ℚ
  deriving DecidableEq, Repr

instance : Inhabited Candle := ⟨⟨0, 0, 0, 0, 0⟩⟩

/-- `RiskContextConfig` from `settings.py`. -/
structure RiskContextConfig where
  enabled : Bool
  atr_period : ℕ
  atr_stop_multiplier : ℚ
  rr_targets : ℚ × ℚ
  deriving DecidableEq, Repr

structure M15Trigger where
  direction : Direction
  mode : TriggerMode
  m15_close_time_utc : ℤ
  m15_lwma_fast : ℚ
  m15_lwma_slow : ℚ
  m15_stoch_k : ℚ
  m15_stoch_d : ℚ
  deriving DecidableEq, Repr

structure M1Snapshot where
  bar_time_utc : ℤ
  close_price : ℚ
  lwma_fast : ℚ
  lwma_slow : ℚ
  stoch_k : ℚ
  stoch_d : ℚ
  lwma_cross_above : Bool
  lwma_cross_below : Bool
  stoch_cross_above : Bool
  stoch_cross_below : Bool
  stoch_in_buy_zone : Bool
  stoch_in_sell_zone : Bool
  deriving DecidableEq, Repr

structure M15Context where
  lwma_fast : List (Option ℚ)
  lwma_slow : List (Option ℚ)
  stoch_k : List (Option ℚ)
  stoch_d : List (Option ℚ)
  order : String
  stoch_cross_above : Bool
  stoch_cross_below : Bool

/-- `StrategyEvaluator._build_m15_context`. -/
def buildM15Context (params : IndicatorParams) (m15 : List Candle) : Option M15Context :=
  if m15.length < max params.lwma_slow params.stoch_k + 2 then none
  else
    let close := m15.map Candle.close
    let fast := lwmaSeries (close.map some) params.lwma_fast
    let slow := lwmaSeries (close.map some) params.lwma_slow
    let st := calculate_stochastic close params.stoch_k params.stoch_d params.stoch_slowing
    let stochK := st.1
    let stochD := st.2
    let idx := m15.length - 1
    if idx < 1 then none
    else
      match fast.getD (idx - 1) none, fast.getD idx none,
            slow.getD (idx - 1) none, slow.getD idx none,
            stochK.getD (idx - 1) none, stochK.getD idx none,
            stochD.getD (idx - 1) none, stochD.getD idx none with
      | some _, some fc, some _, some sc, some _, some _, some _, some _ =>
          let order := if fc = sc then "neutral" else if fc > sc then "bullish" else "bearish"
          let cr := crossAt stochK stochD idx
          some ⟨fast, slow, stochK, stochD, order, cr.1, cr.2⟩
      | _, _, _, _, _, _, _, _ => none

/-- `StrategyEvaluator.evaluate_m15_triggers` (the regime-filter verdict is
the parameter `regimeOk`). -/
def evaluate_m15_triggers (params : IndicatorParams) (regimeOk : Bool)
    (m15 : List Candle) (m15CloseTime : ℤ) : List M15Trigger :=
  match buildM15Context params m15 with
  | none => []
  | some ctx =>
      let idx := m15.length - 1
      match ctx.stoch_k.getD idx none, ctx.stoch_d.getD idx none,
            ctx.lwma_fast.getD idx none, ctx.lwma_slow.getD idx none with
      | some m15K, some m15D, some m15Fast, some m15Slow =>
          let lwmaCross := crossAt ctx.lwma_fast ctx.lwma_slow idx
          let normalBuy := decide (ctx.order = "bullish") &&
            stoch_in_zone m15K params.buy_zone && ctx.stoch_cross_above
          let normalSell := decide (ctx.order = "bearish") &&
            stoch_in_zone m15K params.sell_zone && ctx.stoch_cross_below
          let hpBuy := normalBuy && lwmaCross.1
          let hpSell := normalSell && lwmaCross.2
          if (normalBuy || normalSell || hpBuy || hpSell) && !regimeOk then []
          else
            (if normalBuy then
              [⟨Direction.BUY, TriggerMode.NORMAL, m15CloseTime, m15Fast, m15Slow, m15K, m15D⟩]
             else []) ++
            (if normalSell then
              [⟨Direction.SELL, TriggerMode.NORMAL, m15CloseTime, m15Fast, m15Slow, m15K, m15D⟩]
             else []) ++
            (if hpBuy then
              [⟨Direction.BUY, TriggerMode.HIGH_PROBABILITY, m15CloseTime,
                m15Fast, m15Slow, m15K, m15D⟩]
             else []) ++
            (if hpSell then
              [⟨Direction.SELL, TriggerMode.HIGH_PROBABILITY, m15CloseTime,
                m15Fast, m15Slow, m15K, m15D⟩]
             else [])
      | _, _, _, _ => []

structure M1Ctx where
  candles : List Candle
  lwma_fast : List (Option ℚ)
  lwma_slow : List (Option ℚ)
  stoch_k : List (Option ℚ)
  stoch_d : List (Option ℚ)

/-- `StrategyEvaluator._build_m1_context`. -/
def buildM1Context (params : IndicatorParams) (m1 : List Candle) : Option M1Ctx :=
  if m1.length < max params.lwma_slow params.stoch_k + 2 then none
  else
    let close := m1.map Candle.close
    let st := calculate_stochastic close params.stoch_k params.stoch_d params.stoch_slowing
    some ⟨m1, lwmaSeries (close.map some) params.lwma_fast,
      lwmaSeries (close.map some) params.lwma_slow, st.1, st.2⟩

/-- `StrategyEvaluator._select_m1_candidates`: positions whose close time
(open time + 1 minute) lies in `(m15_prev_close, m15_current_close]`. -/
def selectM1Candidates (m1 : List Candle) (prevClose currClose : ℤ) : List ℕ :=
  (List.range m1.length).filter fun i =>
    let closeTime := (m1.getD i default).time + 1
    decide (prevClose < closeTime ∧ closeTime ≤ currClose)

/-- `StrategyEvaluator._build_risk_context`.  Note the second component of
the returned tuple: the source populates the invalidation slot with
`m15_fast`, not `entry ± stop_distance`. -/
def buildRiskContext (cfg : Option RiskContextConfig) (m15 : List Candle)
    (direction : Direction) (entry m15Fast : ℚ) : Option (ℚ × ℚ × ℚ × ℚ) :=
  match cfg with
  | none => none
  | some c =>
      if !c.enabled then none
      else if m15.length < c.atr_period then none
      else
        match (calculate_atr (m15.map Candle.high) (m15.map Candle.low)
            (m15.map Candle.close) c.atr_period).getLast? with
        | none => none
        | some none => none
        | some (some atrValue) =>
            let stopDistance := atrValue * c.atr_stop_multiplier
            let tp1 := if direction = .BUY then entry + stopDistance * c.rr_targets.1
              else entry - stopDistance * c.rr_targets.1
            let tp2 := if direction = .BUY then entry + stopDistance * c.rr_targets.2
              else entry - stopDistance * c.rr_targets.2
            some (stopDistance, m15Fast, tp1, tp2)

/-- `StrategyEvaluator._make_signal` (id and creation time are attached
afterwards by `attachIds`, standing in for the inline `uuid4`/`utc_now`). -/
def makeSignal (symbol : String) (direction : Direction) (scenario : Scenario)
    (price : ℚ) (m15CloseTime m1CloseTime : ℤ)
    (m15Fast m15Slow m15K m15D : ℚ)
    (m1Fast m1Slow m1K m1D : Option ℚ)
    (risk : Option (ℚ × ℚ × ℚ × ℚ)) : Signal :=
  { id := ""
    symbol := symbol
    direction := direction
    scenario := scenario
    price := price
    created_at_utc := 0
    m1_bar_time_utc := m1CloseTime
    m15_bar_time_utc := some m15CloseTime
    m15_lwma_fast := some m15Fast
    m15_lwma_slow := some m15Slow
    m15_stoch_k := some m15K
    m15_stoch_d := some m15D
    m1_lwma_fast := m1Fast
    m1_lwma_slow := m1Slow
    m1_stoch_k := m1K
    m1_stoch_d := m1D
    risk_stop_distance := risk.map (fun r => r.1)
    risk_invalidation_price := risk.map (fun r => r.2.1)
    risk_tp1_price := risk.map (fun r => r.2.2.1)
    risk_tp2_price := risk.map (fun r => r.2.2.2) }

/-- Does the candidate row at `pos` have all four M1 indicator cells
defined (the `np.isnan(...).any()`-guarded `continue` in the loops)? -/
def m1RowDefined (ctx : M1Ctx) (pos : ℕ) : Bool :=
  (ctx.stoch_k.getD pos none).isSome && (ctx.stoch_d.getD pos none).isSome &&
    (ctx.lwma_fast.getD pos none).isSome && (ctx.lwma_slow.getD pos none).isSome

/-- The body of `StrategyEvaluator.evaluate_all`, producing the signals in
source order (BUY_S1, BUY_S2, SELL_S1, SELL_S2) with placeholder id and
creation time. -/
def evaluateCores (params : IndicatorParams) (regimeOk : Bool)
    (riskCfg : Option RiskContextConfig) (m15 m1 : List Candle)
    (symbol : String) (m15CloseTime : ℤ) (price : Option ℚ) : List Signal :=
  match buildM15Context params m15 with
  | none => []
  | some ctx =>
    let idx := m15.length - 1
    match ctx.stoch_k.getD idx none, ctx.stoch_d.getD idx none,
          ctx.lwma_fast.getD idx none, ctx.lwma_slow.getD idx none with
    | some m15K, some m15D, some m15Fast, some m15Slow =>
      let buyPre := decide (ctx.order = "bullish") &&
        stoch_in_zone m15K params.buy_zone && ctx.stoch_cross_above
      let sellPre := decide (ctx.order = "bearish") &&
        stoch_in_zone m15K params.sell_zone && ctx.stoch_cross_below
      if !buyPre && !sellPre then []
      else if !regimeOk then []
      else
        match buildM1Context params m1 with
        | none => []
        | some m1Ctx =>
          let candidates := selectM1Candidates m1Ctx.candles (m15CloseTime - 15) m15CloseTime
          if candidates.isEmpty then []
          else
            let closeTime := fun (pos : ℕ) => (m1Ctx.candles.getD pos default).time + 1
            let closePrice := fun (pos : ℕ) => (m1Ctx.candles.getD pos default).close
            let s1Signal := fun (direction : Direction) (scenario : Scenario)
                (zone : ℤ × ℤ) (crossSel : Bool × Bool → Bool) =>
              match candidates.find? (fun pos =>
                  m1RowDefined m1Ctx pos &&
                  crossSel (crossAt m1Ctx.stoch_k m1Ctx.stoch_d pos) &&
                  stoch_in_zone ((m1Ctx.stoch_k.getD pos none).getD 0) zone) with
              | none => []
              | some pos =>
                  let entry := price.getD (closePrice pos)
                  [makeSignal symbol direction scenario entry m15CloseTime (closeTime pos)
                    m15Fast m15Slow m15K m15D
                    none none (m1Ctx.stoch_k.getD pos none) (m1Ctx.stoch_d.getD pos none)
                    (buildRiskContext riskCfg m15 direction entry m15Fast)]
            let s2Signal := fun (direction : Direction) (scenario : Scenario)
                (crossSel : Bool × Bool → Bool) =>
              match candidates.find? (fun pos =>
                  m1RowDefined m1Ctx pos &&
                  crossSel (crossAt m1Ctx.lwma_fast m1Ctx.lwma_slow pos)) with
              | none => []
              | some pos =>
                  let entry := price.getD (closePrice pos)
                  [makeSignal symbol direction scenario entry m15CloseTime (closeTime pos)
                    m15Fast m15Slow m15K m15D
                    (m1Ctx.lwma_fast.getD pos none) (m1Ctx.lwma_slow.getD pos none) none none
                    (buildRiskContext riskCfg m15 direction entry m15Fast)]
            (if buyPre then
              s1Signal .BUY .BUY_S1 params.buy_zone Prod.fst ++
                s2Signal .BUY .BUY_S2 Prod.fst
             else []) ++
            (if sellPre then
              s1Signal .SELL .SELL_S1 params.sell_zone Prod.snd ++
                s2Signal .SELL .SELL_S2 Prod.snd
             else [])
    | _, _, _, _ => []

/-- Attach the `uuid4`/`utc_now` draws: the k-th signal created receives the
k-th fresh id and the shared clock reading. -/
def attachIds (idGen : ℕ → String) (now : ℤ) (cores : List Signal) : List Signal :=
  cores.enum.map fun p => { p.2 with id := idGen p.1, created_at_utc := now }

/-- `StrategyEvaluator.evaluate_all`. -/
def evaluate_all (params : IndicatorParams) (regimeOk : Bool)
    (riskCfg : Option RiskContextConfig) (idGen : ℕ → String) (now : ℤ)
    (m15 m1 : List Candle) (symbol : String) (m15CloseTime : ℤ)
    (price : Option ℚ) : List Signal :=
  attachIds idGen now
    (evaluateCores params regimeOk riskCfg m15 m1 symbol m15CloseTime price)

/-- `StrategyEvaluator._make_chain_signal` (`id`/`now` are the `uuid4` and
`utc_now` draws of the call). -/
def makeChainSignal (pending : PendingSetup) (snapshot : M1Snapshot) (price : ℚ)
    (id : String) (now : ℤ) : Signal :=
  let scenario :=
    match pending.direction, pending.mode with
    | .BUY, .HIGH_PROBABILITY => Scenario.BUY_CHAIN_HP
    | .BUY, .NORMAL => Scenario.BUY_CHAIN
    | .SELL, .HIGH_PROBABILITY => Scenario.SELL_CHAIN_HP
    | .SELL, .NORMAL => Scenario.SELL_CHAIN
  { id := id
    symbol := pending.symbol
    direction := pending.direction
    scenario := scenario
    price := price
    created_at_utc := now
    m15_bar_time_utc := some pending.m15_trigger_time_utc
    m1_bar_time_utc := snapshot.bar_time_utc
    m15_lwma_fast := some pending.m15_lwma_fast
    m15_lwma_slow := some pending.m15_lwma_slow
    m15_stoch_k := some pending.m15_stoch_k
    m15_stoch_d := some pending.m15_stoch_d
    m1_lwma_fast := some snapshot.lwma_fast
    m1_lwma_slow := some snapshot.lwma_slow
    m1_stoch_k := some snapshot.stoch_k
    m1_stoch_d := some snapshot.stoch_d }

/-- `StrategyEvaluator._advance_buy_pending`. -/
def advanceBuyPending (requireOppositeZone : Bool) (pending : PendingSetup)
    (snapshot : M1Snapshot) (price : Option ℚ) (id : String) (now : ℤ) :
    Option PendingSetup × Option Signal :=
  if pending.state = PendingState.WAIT_M1_LWMA then
    if !snapshot.lwma_cross_above then (some pending, none)
    else if requireOppositeZone && !snapshot.stoch_in_sell_zone then (some pending, none)
    else if snapshot.stoch_cross_above then (some pending, none)
    else
      (some { pending with state := PendingState.WAIT_M1_STOCH, last_updated_utc := now },
        none)
  else if pending.state = PendingState.WAIT_M1_STOCH then
    if snapshot.stoch_cross_above && snapshot.stoch_in_buy_zone then
      (none, some (makeChainSignal pending snapshot
        (price.getD snapshot.close_price) id now))
    else (some pending, none)
  else (some pending, none)

/-- `StrategyEvaluator._advance_sell_pending`. -/
def advanceSellPending (requireOppositeZone : Bool) (pending : PendingSetup)
    (snapshot : M1Snapshot) (price : Option ℚ) (id : String) (now : ℤ) :
    Option PendingSetup × Option Signal :=
  if pending.state = PendingState.WAIT_M1_LWMA then
    if !snapshot.lwma_cross_below then (some pending, none)
    else if requireOppositeZone && !snapshot.stoch_in_buy_zone then (some pending, none)
    else if snapshot.stoch_cross_below then (some pending, none)
    else
      (some { pending with state := PendingState.WAIT_M1_STOCH, last_updated_utc := now },
        none)
  else if pending.state = PendingState.WAIT_M1_STOCH then
    if snapshot.stoch_cross_below && snapshot.stoch_in_sell_zone then
      (none, some (makeChainSignal pending snapshot
        (price.getD snapshot.close_price) id now))
    else (some pending, none)
  else (some pending, none)

/-- `StrategyEvaluator.advance_pending_setup`. -/
def advance_pending_setup (requireOppositeZone : Bool) (pending : PendingSetup)
    (snapshot : M1Snapshot) (price : Option ℚ) (id : String) (now : ℤ) :
    Option PendingSetup × Option Signal :=
  if pending.direction = Direction.BUY then
    advanceBuyPending requireOppositeZone pending snapshot price id now
  else
    advanceSellPending requireOppositeZone pending snapshot price id now

/-! ## Trigger registration: `TradingSignalBotApp._register_m15_triggers`
(`main.py`).  The per-symbol pending map (a Python dict keyed by
`(direction, mode)`) is an insertion-ordered association list; dict
assignment replaces in place when the key exists, else appends. -/

abbrev PendingMap := List ((Direction × TriggerMode) × PendingSetup)

/-- Dict assignment `pending_map[key] = value`: replace in place when the
key exists, else append. -/
def dictSet (m : PendingMap) (key : Direction × TriggerMode) (value : PendingSetup) :
    PendingMap :=
  match m with
  | [] => [(key, value)]
  | kv :: rest =>
      if kv.1 = key then (key, value) :: rest else kv :: dictSet rest key value

def oppositeOf : Direction → Direction
  | .BUY => .SELL
  | .SELL => .BUY

/-- The fresh pending setup created for a registered trigger. -/
def setupOfTrigger (symbol : String) (trigger : M15Trigger) (now : ℤ) : PendingSetup :=
  { symbol := symbol
    direction := trigger.direction
    mode := trigger.mode
    state := PendingState.WAIT_M1_LWMA
    m15_trigger_time_utc := trigger.m15_close_time_utc
    last_updated_utc := now
    m15_lwma_fast := trigger.m15_lwma_fast
    m15_lwma_slow := trigger.m15_lwma_slow
    m15_stoch_k := trigger.m15_stoch_k
    m15_stoch_d := trigger.m15_stoch_d }

/-- `TradingSignalBotApp._register_m15_triggers`: drop every pending setup
whose direction is opposed by some trigger (the filter tests direction
only), then store a fresh setup under each trigger's `(direction, mode)`
key. -/
def register_m15_triggers (symbol : String) (pendingMap : PendingMap)
    (triggers : List M15Trigger) (now : ℤ) : PendingMap :=
  if triggers.isEmpty then pendingMap
  else
    let hasBuy := triggers.any fun t => t.direction = Direction.BUY
    let hasSell := triggers.any fun t => t.direction = Direction.SELL
    let afterBuy := if hasBuy then
        pendingMap.filter (fun kv => kv.2.direction ≠ Direction.SELL)
      else pendingMap
    let afterSell := if hasSell then
        afterBuy.filter (fun kv => kv.2.direction ≠ Direction.BUY)
      else afterBuy
    triggers.foldl (fun m t =>
      dictSet m (t.direction, t.mode) (setupOfTrigger symbol t now)) afterSell

/-! ## Signal identity keys (`models.py`) -/

/-- `Signal.idempotency_key`: `symbol|direction|scenario-or-merged-set|bar`;
the bar time is the M15 bar time when present, else the M1 bar time; a
truthy (non-empty) `matched_scenarios` switches to the `SUMMARY[...]` form
with the sorted scenario values joined by commas. -/
def Signal.idempotency_key (s : Signal) : String :=
  let barTime := s.m15_bar_time_utc.getD s.m1_bar_time_utc
  let bar := toString barTime
  match s.matched_scenarios with
  | some (x :: xs) =>
      let sorted := ((x :: xs).map Scenario.value).mergeSort (fun a b => a ≤ b)
      s.symbol ++ "|" ++ s.direction.value ++ "|SUMMARY[" ++
        String.intercalate "," sorted ++ "]|" ++ bar
  | _ => s.symbol ++ "|" ++ s.direction.value ++ "|" ++ s.scenario.value ++ "|" ++ bar

/-- `Signal.cooldown_key`: `symbol|direction`. -/
def Signal.cooldown_key (s : Signal) : String :=
  s.symbol ++ "|" ++ s.direction.value

/-! ## Dedup/cooldown store: `repositories/dedup_store.py`

Both persisted key maps are modelled as partial maps `String → Option ℤ`
carrying the recorded timestamp (seconds since epoch); the signal-id half of
an idempotency entry plays no role in the gating logic.  `utc_now` is the
explicit argument `now`. -/

structure DedupState where
  idempotency_keys : String → Option ℤ
  cooldown_keys : String → Option ℤ

structure DedupConfig where
  cooldown_minutes : ℤ
  retention_days : ℤ

/-- `DedupStore._prune_in_memory`: drop idempotency entries recorded before
`now - retention_days` and cooldown entries whose age reaches the cooldown
window. -/
def dedupPrune (cfg : DedupConfig) (now : ℤ) (st : DedupState) : DedupState :=
  { idempotency_keys := fun k =>
      match st.idempotency_keys k with
      | some ts => if ts < now - cfg.retention_days * 86400 then none else some ts
      | none => none
    cooldown_keys := fun k =>
      match st.cooldown_keys k with
      | some ts => if now - ts ≥ cfg.cooldown_minutes * 60 then none else some ts
      | none => none }

/-- `DedupStore.should_emit`. -/
def should_emit (cfg : DedupConfig) (st : DedupState) (signal : Signal) (now : ℤ) : Bool :=
  let st := dedupPrune cfg now st
  if (st.idempotency_keys signal.idempotency_key).isSome then false
  else
    match st.cooldown_keys signal.cooldown_key with
    | some ts => if now - ts < cfg.cooldown_minutes * 60 then false else true
    | none => true

/-- `DedupStore.record`: write both maps, then prune. -/
def record (cfg : DedupConfig) (st : DedupState) (signal : Signal) (now : ℤ) : DedupState :=
  dedupPrune cfg now
    { idempotency_keys := fun k =>
        if k = signal.idempotency_key then some now else st.idempotency_keys k
      cooldown_keys := fun k =>
        if k = signal.cooldown_key then some now else st.cooldown_keys k }

/-! ## Notification delivery queue: `telegram_notifier.py`

A queue item is a parsed `DeliveryQueueItem`; the Telegram transport of a
retry pass is an oracle: `sendOk i` is whether the (single) delivery attempt
made for the item at position `i` succeeds, `errMsg i` the error recorded on
failure. -/

structure QueueItem where
  signal : Signal
  retry_count : ℕ
  failed_at : ℤ
  last_error : String
  deriving DecidableEq, Repr

/-- One step of `TelegramNotifier.retry_failed_queue`'s loop over the queue.
State: (sent count, kept items so far, indices attempted so far). -/
def retryStep (maxFailedRetryCount : ℕ) (sendOk : ℕ → Bool) (errMsg : ℕ → String)
    (now : ℤ) (acc : ℕ × List QueueItem × List ℕ) (entry : ℕ × QueueItem) :
    ℕ × List QueueItem × List ℕ :=
  let (sent, kept, attempted) := acc
  let (i, item) := entry
  if item.retry_count ≥ maxFailedRetryCount then (sent, kept, attempted)
  else
    let attempted := attempted ++ [i]
    if sendOk i then (sent + 1, kept, attempted)
    else
      let rc := item.retry_count + 1
      if rc ≥ maxFailedRetryCount then (sent, kept, attempted)
      else (sent, kept ++
        [{ item with retry_count := rc, failed_at := now, last_error := errMsg i }],
        attempted)

/-- `TelegramNotifier.retry_failed_queue`: one delivery attempt per eligible
queued item, success removes, failure increments the counter, reaching
`max_failed_retry_count` drops.  Returns (sent count, new queue, attempted
positions). -/
def retry_failed_queue (maxFailedRetryCount : ℕ) (sendOk : ℕ → Bool)
    (errMsg : ℕ → String) (now : ℤ) (items : List QueueItem) :
    ℕ × List QueueItem × List ℕ :=
  items.enum.foldl (retryStep maxFailedRetryCount sendOk errMsg now) (0, [], [])

/-- `TelegramNotifier._enqueue_failed`: append with the retry counter seeded
at `max_retries`, keeping only the newest `max_queue` items. -/
def enqueue_failed (maxRetries maxQueue : ℕ) (queue : List QueueItem)
    (signal : Signal) (lastError : String) (now : ℤ) : List QueueItem :=
  let items := queue ++
    [{ signal := signal, retry_count := maxRetries, failed_at := now,
       last_error := lastError }]
  if items.length > maxQueue then items.drop (items.length - maxQueue) else items

/-! ## Signal serialization: `Signal.to_dict` / `Signal.from_dict`
(`models.py`).  The flat JSON record is the structure `SignalPayload`;
ISO-formatted datetimes round-trip exactly and are kept as integers. -/

structure SignalPayload where
  id : String
  symbol : String
  direction : String
  scenario : String
  price : ℚ
  created_at_utc : ℤ
  m1_bar_time_utc : ℤ
  m15_bar_time_utc : Option ℤ
  m15_lwma_fast : Option ℚ
  m15_lwma_slow : Option ℚ
  m15_stoch_k : Option ℚ
  m15_stoch_d : Option ℚ
  m1_lwma_fast : Option ℚ
  m1_lwma_slow : Option ℚ
  m1_stoch_k : Option ℚ
  m1_stoch_d : Option ℚ
  matched_scenarios : Option (List String)
  risk_stop_distance : Option ℚ
  risk_invalidation_price : Option ℚ
  risk_tp1_price : Option ℚ
  risk_tp2_price : Option ℚ
  deriving DecidableEq, Repr

/-- The `matched_scenarios` serialization of `to_dict`: Python truthiness
maps both `None` and the empty list to `null`, else the scenario values. -/
def serializeMatched (m : Option (List Scenario)) : Option (List String) :=
  match m with
  | some (x :: xs) => some ((x :: xs).map Scenario.value)
  | _ => none

/-- `Signal.to_dict`. -/
def Signal.to_dict (s : Signal) : SignalPayload :=
  { id := s.id
    symbol := s.symbol
    direction := s.direction.value
    scenario := s.scenario.value
    price := s.price
    created_at_utc := s.created_at_utc
    m1_bar_time_utc := s.m1_bar_time_utc
    m15_bar_time_utc := s.m15_bar_time_utc
    m15_lwma_fast := s.m15_lwma_fast
    m15_lwma_slow := s.m15_lwma_slow
    m15_stoch_k := s.m15_stoch_k
    m15_stoch_d := s.m15_stoch_d
    m1_lwma_fast := s.m1_lwma_fast
    m1_lwma_slow := s.m1_lwma_slow
    m1_stoch_k := s.m1_stoch_k
    m1_stoch_d := s.m1_stoch_d
    matched_scenarios := serializeMatched s.matched_scenarios
    risk_stop_distance := s.risk_stop_distance
    risk_invalidation_price := s.risk_invalidation_price
    risk_tp1_price := s.risk_tp1_price
    risk_tp2_price := s.risk_tp2_price }

/-- `Direction(str(...))`: parsing a direction value raises on anything
other than the two member values. -/
def Direction.ofValue (v : String) : Except String Direction :=
  if v = "BUY" then .ok .BUY
  else if v = "SELL" then .ok .SELL
  else .error "invalid Direction"

/-- `Scenario(str(...))`. -/
def Scenario.ofValue (v : String) : Except String Scenario :=
  if v = "BUY_S1" then .ok .BUY_S1
  else if v = "BUY_S2" then .ok .BUY_S2
  else if v = "SELL_S1" then .ok .SELL_S1
  else if v = "SELL_S2" then .ok .SELL_S2
  else if v = "BUY_M1" then .ok .BUY_M1
  else if v = "SELL_M1" then .ok .SELL_M1
  else if v = "BUY_CHAIN" then .ok .BUY_CHAIN
  else if v = "SELL_CHAIN" then .ok .SELL_CHAIN
  else if v = "BUY_CHAIN_HP" then .ok .BUY_CHAIN_HP
  else if v = "SELL_CHAIN_HP" then .ok .SELL_CHAIN_HP
  else if v = "BUY_SUMMARY" then .ok .BUY_SUMMARY
  else if v = "SELL_SUMMARY" then .ok .SELL_SUMMARY
  else .error "invalid Scenario"

/-- `[Scenario(str(item)) for item in ...]`: the first invalid value
raises. -/
def parseScenarios : List String → Except String (List Scenario)
  | [] => .ok []
  | x :: xs =>
      match Scenario.ofValue x, parseScenarios xs with
      | .ok s, .ok rest => .ok (s :: rest)
      | .error e, _ => .error e
      | _, .error e => .error e

/-- The `matched_scenarios` branch of `from_dict`: a JSON list is parsed
element-wise, anything else becomes `None`. -/
def parseMatched (o : Option (List String)) : Except String (Option (List Scenario)) :=
  match o with
  | some items => (parseScenarios items).map some
  | none => .ok none

/-- `Signal.from_dict` (the three fallible parses, in Python evaluation
order; the first raised error propagates). -/
def Signal.from_dict (p : SignalPayload) : Except String Signal :=
  match Direction.ofValue p.direction, Scenario.ofValue p.scenario,
        parseMatched p.matched_scenarios with
  | .error e, _, _ => .error e
  | _, .error e, _ => .error e
  | _, _, .error e => .error e
  | .ok direction, .ok scenario, .ok matched => .ok
    { id := p.id
      symbol := p.symbol
      direction := direction
      scenario := scenario
      price := p.price
      created_at_utc := p.created_at_utc
      m1_bar_time_utc := p.m1_bar_time_utc
      m15_bar_time_utc := p.m15_bar_time_utc
      m15_lwma_fast := p.m15_lwma_fast
      m15_lwma_slow := p.m15_lwma_slow
      m15_stoch_k := p.m15_stoch_k
      m15_stoch_d := p.m15_stoch_d
      m1_lwma_fast := p.m1_lwma_fast
      m1_lwma_slow := p.m1_lwma_slow
      m1_stoch_k := p.m1_stoch_k
      m1_stoch_d := p.m1_stoch_d
      matched_scenarios := matched
      risk_stop_distance := p.risk_stop_distance
      risk_invalidation_price := p.risk_invalidation_price
      risk_tp1_price := p.risk_tp1_price
      risk_tp2_price := p.risk_tp2_price }

/-! ## Concrete evaluation fixtures -/

/-- A bar whose open/high/low/close all equal `c` (true range degenerates to
`|close - prevClose|`). -/
def flatBar (t : ℤ) (c : ℚ) : Candle := ⟨t, c, c, c, c⟩

/-- Small but valid indicator parameters (fast < slow, buy zone below sell
zone), as in the repository's unit tests. -/
def paramsX : IndicatorParams :=
  { lwma_fast := 2, lwma_slow := 3, stoch_k := 3, stoch_d := 2, stoch_slowing := 1
    buy_zone := (10, 20), sell_zone := (80, 90) }

/-- A primary window on which the latest bar shows bullish order, %K = 15
inside the buy zone, a stochastic cross-above, and a simultaneous average
cross-above. -/
def m15X : List Candle :=
  [flatBar 0 0, flatBar 15 (-250), flatBar 30 1000, flatBar 45 0,
   flatBar 60 100, flatBar 75 15]

/-- A confirmation window whose last bar (close time 85, inside the primary
window `(75, 90]`) shows an average cross-above. -/
def m1X : List Candle :=
  [flatBar 80 0, flatBar 81 0, flatBar 82 0, flatBar 83 0, flatBar 84 1]

def riskCfgX : RiskContextConfig :=
  { enabled := true, atr_period := 3, atr_stop_multiplier := 1, rr_targets := (2, 3) }

/-! ## C1 -/

/-- C1: the claim says every signal's invalidation price equals
`entry ∓ stop distance`.  On the fixture the single BUY_S2 signal has
entry price 1 and stop distance `9365/27` (indeed `ATR(3) × 1`, the last
ATR value of the window), but its invalidation price is `130/3` — the M15
fast LWMA — which differs from `entry - stop = 1 - 9365/27`:
`_build_risk_context` returns `(stop_distance, m15_fast, tp1, tp2)`,
populating the invalidation slot with `m15_fast`.  The repository's own
test (`test_risk_invalidation_uses_entry_price`) demands
`entry - stop`, so the code, not the claim, is wrong. -/
theorem c1_invalidation_is_lwma_not_entry_minus_stop :
    ((evaluate_all paramsX true (some riskCfgX) (fun i => toString i) 0
        m15X m1X "XAUUSD" 90 none).map
      (fun s => (s.scenario, s.price, s.risk_stop_distance, s.risk_invalidation_price,
        s.risk_tp1_price, s.risk_tp2_price)) =
      [(Scenario.BUY_S2, 1, some (9365/27), some (130/3),
        some (1 + (9365/27) * 2), some (1 + (9365/27) * 3))]) ∧
    (calculate_atr (m15X.map Candle.high) (m15X.map Candle.low)
        (m15X.map Candle.close) 3).getLast? = some (some (9365/27)) ∧
    (130 : ℚ)/3 ≠ 1 - 9365/27 := by
  refine ⟨by rfl, by rfl, by decide⟩

/-! ## C2 -/

/-- C2: the claim says a high-probability trigger replaces the normal-mode
trigger for its direction, so the returned list never contains both.  On
the fixture — where the normal BUY conditions hold and the averages also
cross above at the latest bar — `evaluate_m15_triggers` returns BOTH a
NORMAL and a HIGH_PROBABILITY BUY trigger: the code appends the
high-probability trigger in addition to the normal one.  The repository's
own test (`test_hp_trigger_suppresses_normal_for_same_direction`) demands
exactly one (HP) trigger, so the code, not the claim, is wrong. -/
theorem c2_hp_trigger_supplements_instead_of_replacing :
    (evaluate_m15_triggers paramsX true m15X 90).map
        (fun t => (t.direction, t.mode)) =
      [(Direction.BUY, TriggerMode.NORMAL),
       (Direction.BUY, TriggerMode.HIGH_PROBABILITY)] := by
  decide

/-! ## C3 -/

/-- Dict assignment stores the value under its key. -/
theorem lookup_dictSet_self (m : PendingMap) (key : Direction × TriggerMode)
    (v : PendingSetup) : (dictSet m key v).lookup key = some v := by
  induction m with
  | nil => simp [dictSet, List.lookup]
  | cons kv rest ih =>
      by_cases hk : kv.1 = key
      · simp [dictSet, hk, List.lookup]
      · have hbeq : (key == kv.1) = false := by
          simp only [beq_eq_false_iff_ne, ne_eq]
          exact fun e => hk e.symm
        simp [dictSet, hk, List.lookup, hbeq, ih]

/-- Dict assignment leaves every other key unchanged. -/
theorem lookup_dictSet_other (m : PendingMap) (key k : Direction × TriggerMode)
    (v : PendingSetup) (hne : k ≠ key) : (dictSet m key v).lookup k = m.lookup k := by
  have hbeq : (k == key) = false := by simpa using hne
  induction m with
  | nil => simp [dictSet, List.lookup, hbeq]
  | cons kv rest ih =>
      by_cases hk : kv.1 = key
      · rw [← hk] at hbeq
        simp [dictSet, hk, List.lookup, hbeq, hk ▸ hbeq]
      · simp only [dictSet, if_neg hk, List.lookup]
        cases hkv : (k == kv.1) <;> simp [ih]

/-- If every entry stored under `k` fails the filter, `k` is absent from the
filtered map. -/
theorem lookup_filter_none (m : PendingMap) (p : (Direction × TriggerMode) × PendingSetup → Bool)
    (k : Direction × TriggerMode) (h : ∀ kv ∈ m, kv.1 = k → p kv = false) :
    (m.filter p).lookup k = none := by
  induction m with
  | nil => simp
  | cons kv rest ih =>
      simp only [List.filter]
      cases hp : p kv with
      | true =>
          have : ¬(k == kv.1) = true := by
            simp only [beq_iff_eq]
            intro e
            have := h kv (by simp) e.symm
            rw [this] at hp
            cases hp
          simp only [List.lookup, Bool.not_eq_true] at *
          simp only [this]
          exact ih fun x hx => h x (by simp [hx])
      | false => exact ih fun x hx => h x (by simp [hx])

/-- If every entry stored under `k` passes the filter, the lookup of `k` is
unchanged by filtering. -/
theorem lookup_filter_same (m : PendingMap) (p : (Direction × TriggerMode) × PendingSetup → Bool)
    (k : Direction × TriggerMode) (h : ∀ kv ∈ m, kv.1 = k → p kv = true) :
    (m.filter p).lookup k = m.lookup k := by
  induction m with
  | nil => simp
  | cons kv rest ih =>
      simp only [List.filter]
      cases hp : p kv with
      | true =>
          simp only [List.lookup]
          cases hkv : (k == kv.1) <;> simp [ih fun x hx => h x (by simp [hx])]
      | false =>
          have : ¬(k == kv.1) = true := by
            simp only [beq_iff_eq]
            intro e
            have := h kv (by simp) e.symm
            rw [this] at hp
            cases hp
          simp only [List.lookup, Bool.not_eq_true] at *
          simp only [this]
          exact ih fun x hx => h x (by simp [hx])

def sellHpSetupX : PendingSetup :=
  { symbol := "XAUUSD", direction := .SELL, mode := .HIGH_PROBABILITY
    state := .WAIT_M1_LWMA, m15_trigger_time_utc := 60, last_updated_utc := 60
    m15_lwma_fast := 1, m15_lwma_slow := 2, m15_stoch_k := 85, m15_stoch_d := 88 }

def trigBuyNormalX : M15Trigger :=
  { direction := .BUY, mode := .NORMAL, m15_close_time_utc := 90
    m15_lwma_fast := 2, m15_lwma_slow := 1, m15_stoch_k := 15, m15_stoch_d := 12 }

/-- C3 counterexample: the claim keeps opposite-direction pending setups
whose mode differs from the trigger's.  Registering a NORMAL BUY trigger
over a map holding a HIGH_PROBABILITY SELL setup (a different mode key)
nevertheless removes that setup: the filter in `_register_m15_triggers`
tests the direction only, never the mode. -/
theorem c3_counterexample_other_mode_removed :
    (register_m15_triggers "XAUUSD"
        [((Direction.SELL, TriggerMode.HIGH_PROBABILITY), sellHpSetupX)]
        [trigBuyNormalX] 100).lookup
      (Direction.SELL, TriggerMode.HIGH_PROBABILITY) = none := by
  decide

/-- C3 amended: registering a trigger for direction D removes ALL pending
setups of the opposite direction regardless of mode, and stores a fresh
awaiting-average-cross setup under the trigger's own (direction, mode) key,
unconditionally replacing any same-key setup; same-direction setups under a
different mode are untouched.  (The hypothesis is the map invariant
maintained by `main.py`: each setup is stored under its own
`(direction, mode)` key.) -/
theorem c3_register_removes_all_opposite_direction (symbol : String)
    (pendingMap : PendingMap) (t : M15Trigger) (now : ℤ)
    (hWF : ∀ kv ∈ pendingMap, kv.1 = (kv.2.direction, kv.2.mode)) :
    ((register_m15_triggers symbol pendingMap [t] now).lookup (t.direction, t.mode) =
      some (setupOfTrigger symbol t now)) ∧
    (∀ mode, (register_m15_triggers symbol pendingMap [t] now).lookup
      (oppositeOf t.direction, mode) = none) ∧
    (∀ mode, mode ≠ t.mode →
      (register_m15_triggers symbol pendingMap [t] now).lookup (t.direction, mode) =
        pendingMap.lookup (t.direction, mode)) := by
  have hopp : oppositeOf t.direction ≠ t.direction := by
    cases t.direction <;> simp [oppositeOf]
  cases hdir : t.direction with
  | BUY =>
      have hreg : register_m15_triggers symbol pendingMap [t] now =
          dictSet (pendingMap.filter fun kv => kv.2.direction ≠ Direction.SELL)
            (t.direction, t.mode) (setupOfTrigger symbol t now) := by
        simp [register_m15_triggers, List.any, hdir, List.foldl]
      rw [hdir] at hreg
      refine ⟨?_, ?_, ?_⟩
      · rw [hreg]
        exact lookup_dictSet_self _ _ _
      · intro mode
        rw [hreg]
        simp only [oppositeOf]
        rw [lookup_dictSet_other _ _ _ _ (by simp)]
        apply lookup_filter_none
        intro kv hkv hk
        have := hWF kv hkv
        rw [this] at hk
        simp at hk
        simp [hk.1]
      · intro mode hmode
        rw [hreg]
        rw [lookup_dictSet_other _ _ _ _ (by simp [hmode])]
        apply lookup_filter_same
        intro kv hkv hk
        have := hWF kv hkv
        rw [this] at hk
        simp at hk
        simp [hk.1]
  | SELL =>
      have hreg : register_m15_triggers symbol pendingMap [t] now =
          dictSet (pendingMap.filter fun kv => kv.2.direction ≠ Direction.BUY)
            (t.direction, t.mode) (setupOfTrigger symbol t now) := by
        simp [register_m15_triggers, List.any, hdir, List.foldl]
      rw [hdir] at hreg
      refine ⟨?_, ?_, ?_⟩
      · rw [hreg]
        exact lookup_dictSet_self _ _ _
      · intro mode
        rw [hreg]
        simp only [oppositeOf]
        rw [lookup_dictSet_other _ _ _ _ (by simp)]
        apply lookup_filter_none
        intro kv hkv hk
        have := hWF kv hkv
        rw [this] at hk
        simp at hk
        simp [hk.1]
      · intro mode hmode
        rw [hreg]
        rw [lookup_dictSet_other _ _ _ _ (by simp [hmode])]
        apply lookup_filter_same
        intro kv hkv hk
        have := hWF kv hkv
        rw [this] at hk
        simp at hk
        simp [hk.1]

/-- Witness for C3 amended at a concrete map holding a NORMAL BUY setup and
a HIGH_PROBABILITY SELL setup. -/
theorem c3_register_removes_all_opposite_direction_witness :
    ((register_m15_triggers "XAUUSD"
        [((Direction.SELL, TriggerMode.HIGH_PROBABILITY), sellHpSetupX)]
        [trigBuyNormalX] 100).lookup (Direction.BUY, TriggerMode.NORMAL) =
      some (setupOfTrigger "XAUUSD" trigBuyNormalX 100)) ∧
    ((register_m15_triggers "XAUUSD"
        [((Direction.SELL, TriggerMode.HIGH_PROBABILITY), sellHpSetupX)]
        [trigBuyNormalX] 100).lookup (Direction.SELL, TriggerMode.NORMAL) = none) := by
  have h := c3_register_removes_all_opposite_direction "XAUUSD"
    [((Direction.SELL, TriggerMode.HIGH_PROBABILITY), sellHpSetupX)]
    trigBuyNormalX 100 (by decide)
  exact ⟨h.1, h.2.1 TriggerMode.NORMAL⟩

/-! ## C4 -/

/-- C4: `advance_pending_setup` emits a chain signal only from the
awaiting-oscillator-cross stage, and at the awaiting-average-cross stage a
snapshot whose oscillator crosses in the setup's own direction leaves the
setup unchanged (no stage transition, no emission) — so both stages can
never be completed on a single confirmation bar. -/
theorem c4_chain_requires_two_distinct_stages (req : Bool) (pending : PendingSetup)
    (snapshot : M1Snapshot) (price : Option ℚ) (id : String) (now : ℤ) :
    ((advance_pending_setup req pending snapshot price id now).2.isSome = true →
      pending.state = PendingState.WAIT_M1_STOCH) ∧
    (pending.state = PendingState.WAIT_M1_LWMA →
      (if pending.direction = Direction.BUY then snapshot.stoch_cross_above
        else snapshot.stoch_cross_below) = true →
      advance_pending_setup req pending snapshot price id now = (some pending, none)) := by
  constructor
  · intro h
    by_contra hstate
    have hst : pending.state = PendingState.WAIT_M1_LWMA := by
      cases hs : pending.state
      · rfl
      · exact absurd hs hstate
    cases hdir : pending.direction <;>
      simp only [advance_pending_setup, advanceBuyPending, advanceSellPending, hdir, hst,
        reduceCtorEq, if_true, if_false, reduceIte] at h <;>
      split_ifs at h <;> simp at h
  · intro hst hcross
    cases hdir : pending.direction <;>
      simp only [hdir, if_true, reduceIte, reduceCtorEq] at hcross <;>
      simp only [advance_pending_setup, advanceBuyPending, advanceSellPending, hdir, hst,
        hcross, reduceCtorEq, if_true, if_false, reduceIte] <;>
      split_ifs <;> rfl

def pendingX : PendingSetup :=
  { symbol := "XAUUSD", direction := .BUY, mode := .NORMAL
    state := .WAIT_M1_LWMA, m15_trigger_time_utc := 90, last_updated_utc := 90
    m15_lwma_fast := 130/3, m15_lwma_slow := 245/6, m15_stoch_k := 15, m15_stoch_d := 40/3 }

/-- A confirmation snapshot in which both the average and the oscillator
cross in the BUY direction on the same bar. -/
def snapshotX : M1Snapshot :=
  { bar_time_utc := 95, close_price := 2, lwma_fast := 3, lwma_slow := 1
    stoch_k := 85, stoch_d := 80, lwma_cross_above := true, lwma_cross_below := false
    stoch_cross_above := true, stoch_cross_below := false
    stoch_in_buy_zone := false, stoch_in_sell_zone := true }

/-- The same setup already advanced to the awaiting-oscillator-cross stage. -/
def pendingY : PendingSetup := { pendingX with state := .WAIT_M1_STOCH }

/-- A snapshot whose oscillator crosses above inside the buy zone. -/
def snapshotY : M1Snapshot := { snapshotX with stoch_in_buy_zone := true }

/-- Witness for C4: at a concrete stage-1 BUY setup and a snapshot crossing
both indicators at once the setup is left unchanged, and a concrete emission
(from `pendingY`) indeed happens at stage WAIT_M1_STOCH. -/
theorem c4_chain_requires_two_distinct_stages_witness :
    advance_pending_setup true pendingX snapshotX none "w" 95 = (some pendingX, none) ∧
    pendingY.state = PendingState.WAIT_M1_STOCH :=
  ⟨(c4_chain_requires_two_distinct_stages true pendingX snapshotX none "w" 95).2
      (by decide) (by decide),
   (c4_chain_requires_two_distinct_stages true pendingY snapshotY none "w" 95).1
      (by decide)⟩

/-! ## C5 -/

/-- C5: after `record sig` at time `t`, (a) any signal with the identical
idempotency key is rejected while the key is inside the retention window,
and (b) a signal with the same (symbol, direction) cooldown key but a
different idempotency key (e.g. a different bar timestamp) is rejected
while the elapsed time is below the cooldown window and accepted once the
window has elapsed (provided its own idempotency key was never recorded). -/
theorem c5_should_emit_after_record (cfg : DedupConfig) (st : DedupState)
    (sig sig' : Signal) (t t' : ℤ)
    (hretention : 0 ≤ cfg.retention_days) (hcooldown : 0 < cfg.cooldown_minutes) :
    (sig'.idempotency_key = sig.idempotency_key → t' - t ≤ cfg.retention_days * 86400 →
      should_emit cfg (record cfg st sig t) sig' t' = false) ∧
    (sig'.cooldown_key = sig.cooldown_key → sig'.idempotency_key ≠ sig.idempotency_key →
      st.idempotency_keys sig'.idempotency_key = none →
      (t' - t < cfg.cooldown_minutes * 60 →
        should_emit cfg (record cfg st sig t) sig' t' = false) ∧
      (cfg.cooldown_minutes * 60 ≤ t' - t →
        should_emit cfg (record cfg st sig t) sig' t' = true)) := by
  constructor
  · intro hkey hret
    simp only [should_emit, record, dedupPrune, hkey, if_pos rfl]
    have h1 : ¬ (t < t - cfg.retention_days * 86400) := by omega
    have h2 : ¬ (t < t' - cfg.retention_days * 86400) := by omega
    simp [h1, h2]
  · intro hck hne h0
    have hc0 : ¬ (cfg.cooldown_minutes * 60 ≤ 0) := by omega
    constructor
    · intro hlt
      simp only [should_emit, record, dedupPrune, hck, if_pos rfl, hne, if_neg hne, h0]
      have h2 : ¬ (cfg.cooldown_minutes * 60 ≤ t' - t) := by omega
      simp [hc0, h2, hlt]
    · intro hge
      simp only [should_emit, record, dedupPrune, hck, if_pos rfl, hne, if_neg hne, h0]
      simp [hc0, hge]

/-- The empty persisted dedup state. -/
def emptyDedup : DedupState := ⟨fun _ => none, fun _ => none⟩

def cfgX : DedupConfig := { cooldown_minutes := 30, retention_days := 7 }

def sigA : Signal :=
  { id := "a", symbol := "XAUUSD", direction := .BUY, scenario := .BUY_S1
    price := 1, created_at_utc := 0, m1_bar_time_utc := 85, m15_bar_time_utc := some 90 }

/-- The same (symbol, direction) at a later bar: same cooldown key,
different idempotency key. -/
def sigB : Signal := { sigA with m15_bar_time_utc := some 105 }

/-- Witness for C5 at concrete signals: an exact repeat is rejected, the
next bar's signal is rejected 600 s after recording (inside the 30-minute
cooldown) and accepted at 1800 s (window elapsed). -/
theorem c5_should_emit_after_record_witness :
    should_emit cfgX (record cfgX emptyDedup sigA 0) sigA 600 = false ∧
    should_emit cfgX (record cfgX emptyDedup sigA 0) sigB 600 = false ∧
    should_emit cfgX (record cfgX emptyDedup sigA 0) sigB 1800 = true :=
  ⟨(c5_should_emit_after_record cfgX emptyDedup sigA sigA 0 600 (by decide)
      (by decide)).1 rfl (by decide),
   ((c5_should_emit_after_record cfgX emptyDedup sigA sigB 0 600 (by decide)
      (by decide)).2 (by decide) (by decide) rfl).1 (by decide),
   ((c5_should_emit_after_record cfgX emptyDedup sigA sigB 0 1800 (by decide)
      (by decide)).2 (by decide) (by decide) rfl).2 (by decide)⟩

/-! ## C6 / C7 -/

/-- A failed item as re-queued: counter incremented by one, failure time
and error refreshed. -/
def bumpRetry (it : QueueItem) (now : ℤ) (err : String) : QueueItem :=
  { it with retry_count := it.retry_count + 1, failed_at := now, last_error := err }

/-- Closed form of the `retry_failed_queue` fold: starting from any
accumulator, a batch of items all strictly below the drop threshold
contributes one attempt per item (in order), one success per `sendOk`
index, and keeps exactly the failed items whose incremented counter stays
below the threshold. -/
theorem retry_foldl_closed (maxFailed : ℕ) (sendOk : ℕ → Bool) (errMsg : ℕ → String)
    (now : ℤ) (l : List (ℕ × QueueItem)) :
    ∀ (s : ℕ) (kp : List QueueItem) (att : List ℕ),
    (∀ p ∈ l, p.2.retry_count < maxFailed) →
    l.foldl (retryStep maxFailed sendOk errMsg now) (s, kp, att) =
      (s + l.countP (fun p => sendOk p.1),
       kp ++ l.filterMap (fun p =>
         if sendOk p.1 then none
         else if maxFailed ≤ p.2.retry_count + 1 then none
         else some (bumpRetry p.2 now (errMsg p.1))),
       att ++ l.map Prod.fst) := by
  induction l with
  | nil => intro s kp att _; simp
  | cons p rest ih =>
      intro s kp att h
      obtain ⟨i, it⟩ := p
      have hlt : it.retry_count < maxFailed := h (i, it) (by simp)
      have hnot : ¬ (it.retry_count ≥ maxFailed) := by omega
      have hrest : ∀ q ∈ rest, q.2.retry_count < maxFailed :=
        fun q hq => h q (by simp [hq])
      cases hok : sendOk i with
      | true =>
          simp only [List.foldl_cons, retryStep, if_neg hnot, hok, if_true]
          rw [ih _ _ _ hrest]
          simp [List.countP_cons, hok, List.filterMap_cons]
          omega
      | false =>
          by_cases hdrop : maxFailed ≤ it.retry_count + 1
          · simp only [List.foldl_cons, retryStep, if_neg hnot, hok, Bool.false_eq_true,
              if_false, if_pos hdrop]
            rw [ih _ _ _ hrest]
            simp [List.countP_cons, hok, List.filterMap_cons, hdrop]
          · simp only [List.foldl_cons, retryStep, if_neg hnot, hok, Bool.false_eq_true,
              if_false, if_neg hdrop]
            rw [ih _ _ _ hrest]
            simp [List.countP_cons, hok, List.filterMap_cons, hdrop, bumpRetry]

/-- Every position paired by `enum` carries a member of the list. -/
theorem snd_mem_of_mem_enum {α : Type} {l : List α} {p : ℕ × α} (h : p ∈ l.enum) :
    p.2 ∈ l := by
  rcases List.mem_iff_get.mp h with ⟨n, hn⟩
  have := List.getElem_enum l n.1 (by simpa using n.2)
  rw [List.get_eq_getElem] at hn
  rw [this] at hn
  rw [← hn]
  simp

/-- C6: on a queue of well-formed items whose counters are all below the
configured maximum, one retry pass makes exactly one delivery attempt per
queued item (in queue order); an item whose attempt succeeds is absent from
the new queue, an item whose attempt fails is kept with its counter
incremented by exactly one, and is dropped once the incremented counter
reaches the maximum. -/
theorem c6_retry_pass_one_attempt_per_item (maxFailed : ℕ) (sendOk : ℕ → Bool)
    (errMsg : ℕ → String) (now : ℤ) (items : List QueueItem)
    (h : ∀ it ∈ items, it.retry_count < maxFailed) :
    (retry_failed_queue maxFailed sendOk errMsg now items).2.2 =
      List.range items.length ∧
    (retry_failed_queue maxFailed sendOk errMsg now items).2.1 =
      items.enum.filterMap (fun p =>
        if sendOk p.1 then none
        else if maxFailed ≤ p.2.retry_count + 1 then none
        else some (bumpRetry p.2 now (errMsg p.1))) ∧
    (retry_failed_queue maxFailed sendOk errMsg now items).1 =
      (List.range items.length).countP sendOk := by
  have henum : ∀ p ∈ items.enum, p.2.retry_count < maxFailed :=
    fun p hp => h p.2 (snd_mem_of_mem_enum hp)
  unfold retry_failed_queue
  rw [retry_foldl_closed maxFailed sendOk errMsg now items.enum 0 [] [] henum]
  refine ⟨by simp [List.enum_map_fst], by simp, ?_⟩
  have : items.enum.countP (fun p => sendOk p.1) =
      (items.enum.map Prod.fst).countP sendOk := by
    rw [List.countP_map]
    rfl
  simp [this, List.enum_map_fst]

/-- Witness for C6: two queued items (counters 3 and 5, threshold 12); the
first attempt succeeds, the second fails: both were attempted once, the
first is removed, the second kept with its counter at 6, one send counted. -/
theorem c6_retry_pass_one_attempt_per_item_witness :
    (retry_failed_queue 12 (fun i => i == 0) (fun _ => "boom") 7
      [⟨sigA, 3, 0, "e"⟩, ⟨sigB, 5, 0, "e"⟩]).2.2 = [0, 1] ∧
    (retry_failed_queue 12 (fun i => i == 0) (fun _ => "boom") 7
      [⟨sigA, 3, 0, "e"⟩, ⟨sigB, 5, 0, "e"⟩]).2.1 = [⟨sigB, 6, 7, "boom"⟩] ∧
    (retry_failed_queue 12 (fun i => i == 0) (fun _ => "boom") 7
      [⟨sigA, 3, 0, "e"⟩, ⟨sigB, 5, 0, "e"⟩]).1 = 1 := by
  have h := c6_retry_pass_one_attempt_per_item 12 (fun i => i == 0) (fun _ => "boom") 7
    [⟨sigA, 3, 0, "e"⟩, ⟨sigB, 5, 0, "e"⟩] (by decide)
  refine ⟨?_, ?_, ?_⟩
  · rw [h.1]; rfl
  · rw [h.2.1]; rfl
  · rw [h.2.2]; rfl

/-- A retry pass in which every delivery attempt fails with a transport
error (the new queue it leaves behind). -/
def failPass (maxFailed : ℕ) (now : ℤ) (q : List QueueItem) : List QueueItem :=
  (retry_failed_queue maxFailed (fun _ => false) (fun _ => "transport failure") now q).2.1

/-- `k` consecutive all-failing retry passes. -/
def iterFailPass (maxFailed : ℕ) (now : ℤ) : ℕ → List QueueItem → List QueueItem
  | 0, q => q
  | k + 1, q => iterFailPass maxFailed now k (failPass maxFailed now q)

theorem failPass_nil (maxFailed : ℕ) (now : ℤ) : failPass maxFailed now [] = [] := rfl

theorem iterFailPass_nil (maxFailed : ℕ) (now : ℤ) :
    ∀ k, iterFailPass maxFailed now k [] = [] := by
  intro k
  induction k with
  | zero => rfl
  | succ k ih => simp [iterFailPass, failPass_nil, ih]

/-- One all-failing pass over a single-item queue: the item is dropped when
its incremented counter reaches the maximum, else kept with the counter
incremented. -/
theorem failPass_single (maxFailed : ℕ) (now : ℤ) (it : QueueItem)
    (h : it.retry_count < maxFailed) :
    failPass maxFailed now [it] =
      if maxFailed ≤ it.retry_count + 1 then []
      else [bumpRetry it now "transport failure"] := by
  have hnot : ¬ (it.retry_count ≥ maxFailed) := by omega
  by_cases hdrop : maxFailed ≤ it.retry_count + 1 <;>
    simp [failPass, retry_failed_queue, List.enum, List.enumFrom, retryStep, hnot, hdrop,
      bumpRetry]

/-- Retry counts of a single seeded item under `k` all-failing passes: alive
with counter `retry_count + k` while below the maximum, dropped as soon as
the counter reaches it. -/
theorem iterFailPass_single (maxFailed : ℕ) (now : ℤ) :
    ∀ (k : ℕ) (it : QueueItem), it.retry_count < maxFailed →
    k ≤ maxFailed - it.retry_count →
    (iterFailPass maxFailed now k [it]).map QueueItem.retry_count =
      if it.retry_count + k < maxFailed then [it.retry_count + k] else [] := by
  intro k
  induction k with
  | zero =>
      intro it hlt _
      simp [iterFailPass, hlt]
  | succ k ih =>
      intro it hlt hle
      by_cases hdrop : maxFailed ≤ it.retry_count + 1
      · have : iterFailPass maxFailed now (k + 1) [it] = iterFailPass maxFailed now k [] := by
          simp [iterFailPass, failPass_single maxFailed now it hlt, hdrop]
        rw [this, iterFailPass_nil]
        have : ¬ (it.retry_count + (k + 1) < maxFailed) := by omega
        simp [this]
      · have hstep : iterFailPass maxFailed now (k + 1) [it] =
            iterFailPass maxFailed now k [bumpRetry it now "transport failure"] := by
          simp [iterFailPass, failPass_single maxFailed now it hlt, hdrop]
        rw [hstep, ih (bumpRetry it now "transport failure") (by simp [bumpRetry]; omega)
          (by simp [bumpRetry]; omega)]
        simp only [bumpRetry]
        by_cases hfin : it.retry_count + (k + 1) < maxFailed
        · have h1 : it.retry_count + 1 + k < maxFailed := by omega
          simp [h1, hfin]
          omega
        · have h1 : ¬ (it.retry_count + 1 + k < maxFailed) := by omega
          simp [h1, hfin]

/-! ## C7 -/

/-- C7 counterexample: with `max_retries = 1` and
`max_failed_retry_count = 2`, the item enqueued after in-call exhaustion is
seeded with retry_count 1 (as the claim says), but it is dropped after a
single further all-failing retry pass — not after 2
(`max_failed_retry_count`) further passes as the claim states: the drop
test compares the counter (which starts at `max_retries`, not 0) against
`max_failed_retry_count`. -/
theorem c7_counterexample_dropped_before_max_further_passes :
    enqueue_failed 1 50 [] sigA "boom" 0 =
      [{ signal := sigA, retry_count := 1, failed_at := 0, last_error := "boom" }] ∧
    failPass 2 5
      [{ signal := sigA, retry_count := 1, failed_at := 0, last_error := "boom" }] = [] ∧
    (1 : ℕ) < 2 := by
  refine ⟨by rfl, by rfl, by decide⟩

/-- C7 amended: when `send_signal` exhausts its `max_retries` in-call
attempts, the enqueued item's retry counter is seeded at `max_retries`
(not 0); under further all-failing retry passes the item survives with
counter `max_retries + k` after `k` passes while that stays below
`max_failed_retry_count`, and is dropped permanently after
`max_failed_retry_count - max_retries` further passes (when its counter
reaches `max_failed_retry_count`), not after `max_failed_retry_count`
further passes. -/
theorem c7_enqueue_seeded_at_max_retries_drop_at_threshold
    (maxRetries maxFailed maxQueue : ℕ) (sig : Signal) (err : String) (t now : ℤ)
    (hq : 1 ≤ maxQueue) (hlt : maxRetries < maxFailed) :
    enqueue_failed maxRetries maxQueue [] sig err t =
      [{ signal := sig, retry_count := maxRetries, failed_at := t, last_error := err }] ∧
    (∀ k : ℕ, k ≤ maxFailed - maxRetries →
      (iterFailPass maxFailed now k
        [{ signal := sig, retry_count := maxRetries, failed_at := t,
           last_error := err }]).map QueueItem.retry_count =
      if maxRetries + k < maxFailed then [maxRetries + k] else []) := by
  constructor
  · have : ¬ (1 > maxQueue) := by omega
    simp [enqueue_failed, this]
  · intro k hk
    exact iterFailPass_single maxFailed now k _ hlt hk

/-- Witness for C7 amended: `max_retries = 3`, `max_failed_retry_count =
12`; the seeded item survives 8 further failing passes (counter 11) and is
gone after the 9th. -/
theorem c7_enqueue_seeded_at_max_retries_drop_at_threshold_witness :
    enqueue_failed 3 50 [] sigA "boom" 0 =
      [{ signal := sigA, retry_count := 3, failed_at := 0, last_error := "boom" }] ∧
    (iterFailPass 12 5 8
      [{ signal := sigA, retry_count := 3, failed_at := 0,
         last_error := "boom" }]).map QueueItem.retry_count = [11] ∧
    (iterFailPass 12 5 9
      [{ signal := sigA, retry_count := 3, failed_at := 0,
         last_error := "boom" }]).map QueueItem.retry_count = [] := by
  have h := c7_enqueue_seeded_at_max_retries_drop_at_threshold 3 12 50 sigA "boom" 0 5
    (by decide) (by decide)
  refine ⟨h.1, ?_, ?_⟩
  · have h8 := h.2 8 (by decide)
    simpa using h8
  · have h9 := h.2 9 (by decide)
    simpa using h9

/-! ## C8 -/

/-- The linear weights `1..p` sum to `p(p+1)/2`. -/
theorem weightsSum_eq (p : ℕ) : weightsSum p = (p : ℚ) * (p + 1) / 2 := by
  induction p with
  | zero => simp [weightsSum]
  | succ n ih =>
      have : weightsSum (n + 1) = weightsSum n + (n + 1 : ℚ) := by
        simp [weightsSum, List.range_succ]
      rw [this, ih]
      push_cast
      ring

theorem getD_map_range {α : Type} (f : ℕ → α) (n i : ℕ) (d : α) (h : i < n) :
    ((List.range n).map f).getD i d = f i := by
  rw [List.getD_eq_getElem?_getD, List.getElem?_map, List.getElem?_range h]
  rfl

/-- C8: for `period ≤ 0` the weighted moving average raises a configuration
error; for `period > 0` on a series of length ≥ period, exactly the first
`period - 1` outputs are undefined, and each defined output at index `i` is
the dot product of the window ending at `i` (oldest→newest) with the linear
weights `1..period`, divided by `period (period+1) / 2`. -/
theorem c8_lwma_undefined_prefix_and_window_formula (series : List ℚ) (period : ℤ) :
    (period ≤ 0 → calculate_lwma series period = .error "period must be positive") ∧
    (0 < period → period.toNat ≤ series.length →
      ∃ out, calculate_lwma series period = .ok out ∧
        out.length = series.length ∧
        (∀ i, i < series.length →
          ((out.getD i none).isSome = true ↔ period.toNat - 1 ≤ i)) ∧
        (∀ i, period.toNat - 1 ≤ i → i < series.length →
          out.getD i none =
            some (dotWeights ((series.drop (i + 1 - period.toNat)).take period.toNat) 1 /
              ((period : ℚ) * ((period : ℚ) + 1) / 2)))) := by
  constructor
  · intro h
    simp [calculate_lwma, h]
  · intro hpos hlen
    have hneg : ¬ (period ≤ 0) := by omega
    refine ⟨(List.range series.length).map (lwmaCell series period.toNat),
      by simp [calculate_lwma, hneg], by simp, ?_, ?_⟩
    · intro i hi
      rw [getD_map_range _ _ _ _ hi]
      unfold lwmaCell
      by_cases hcut : i + 1 < period.toNat
      · simp only [if_pos hcut, Option.isSome_none]
        constructor
        · intro h
          cases h
        · intro h
          omega
      · simp only [if_neg hcut, Option.isSome_some]
        constructor
        · intro _
          omega
        · intro _
          trivial
    · intro i hge hi
      rw [getD_map_range _ _ _ _ hi]
      unfold lwmaCell windowAt
      have hcut : ¬ (i + 1 < period.toNat) := by omega
      rw [if_neg hcut, weightsSum_eq]
      have hcast : ((period.toNat : ℕ) : ℚ) = (period : ℚ) := by
        have := Int.toNat_of_nonneg (le_of_lt hpos)
        exact_mod_cast congrArg (fun z : ℤ => (z : ℚ)) this
      rw [hcast]

/-- Witness for C8: `period = -3` raises; on `[1, 2, 4]` with `period = 2`
the first output is undefined and outputs 1 and 2 follow the window
formula. -/
theorem c8_lwma_undefined_prefix_and_window_formula_witness :
    calculate_lwma [1, 2, 4] (-3) = .error "period must be positive" ∧
    (∃ out, calculate_lwma [1, 2, 4] 2 = .ok out ∧
      out.length = 3 ∧
      (∀ i, i < 3 → ((out.getD i none).isSome = true ↔ 1 ≤ i)) ∧
      (∀ i, 1 ≤ i → i < 3 →
        out.getD i none =
          some (dotWeights ((([1, 2, 4] : List ℚ).drop (i + 1 - 2)).take 2) 1 /
            ((2 : ℚ) * ((2 : ℚ) + 1) / 2)))) := by
  refine ⟨(c8_lwma_undefined_prefix_and_window_formula [1, 2, 4] (-3)).1 (by decide), ?_⟩
  have h := (c8_lwma_undefined_prefix_and_window_formula [1, 2, 4] 2).2 (by decide) (by decide)
  simpa using h

/-! ## C9 -/

/-- Erase the two nondeterministically drawn fields (`uuid4` id, `utc_now`
creation stamp) of a signal. -/
def eraseNondet (s : Signal) : Signal := { s with id := "", created_at_utc := 0 }

theorem attachIds_erase (g : ℕ → String) (n : ℤ) (l : List Signal) :
    (attachIds g n l).map eraseNondet = l.map eraseNondet := by
  unfold attachIds
  rw [List.map_map]
  have : (eraseNondet ∘ fun p : ℕ × Signal => { p.2 with id := g p.1, created_at_utc := n }) =
      (eraseNondet ∘ Prod.snd) := by
    funext p
    rfl
  rw [this, ← List.map_map, List.enum_map_snd]

/-- C9 counterexample: the claim says two replays of an identical window
agree on EVERY field of every emitted signal.  Two runs on the same fixture
(differing only in the fresh `uuid4` draws and the `utc_now` reading, which
the evaluator generates itself) produce signals with different `id`s. -/
theorem c9_counterexample_ids_differ_between_runs :
    (evaluate_all paramsX true (some riskCfgX) (fun i => "run1-" ++ toString i) 0
      m15X m1X "XAUUSD" 90 none).map Signal.id = ["run1-0"] ∧
    (evaluate_all paramsX true (some riskCfgX) (fun i => "run2-" ++ toString i) 7
      m15X m1X "XAUUSD" 90 none).map Signal.id = ["run2-0"] ∧
    ("run1-0" : String) ≠ "run2-0" := by
  refine ⟨by rfl, by rfl, by decide⟩

/-- C9 amended: replaying identical closed-bar windows through
`evaluate_all` yields identical signal lists up to the freshly drawn
signal id and creation timestamp — every other field of every emitted
signal agrees between the two runs (the evaluator holds no hidden mutable
state; its only nondeterminism is `uuid4`/`utc_now`). -/
theorem c9_evaluate_all_deterministic_up_to_fresh_fields
    (params : IndicatorParams) (regimeOk : Bool) (riskCfg : Option RiskContextConfig)
    (g₁ g₂ : ℕ → String) (n₁ n₂ : ℤ) (m15 m1 : List Candle) (symbol : String)
    (t : ℤ) (price : Option ℚ) :
    (evaluate_all params regimeOk riskCfg g₁ n₁ m15 m1 symbol t price).map eraseNondet =
    (evaluate_all params regimeOk riskCfg g₂ n₂ m15 m1 symbol t price).map eraseNondet := by
  unfold evaluate_all
  rw [attachIds_erase, attachIds_erase]

/-! ## C10 -/

theorem direction_ofValue_value (d : Direction) : Direction.ofValue d.value = .ok d := by
  cases d <;> rfl

theorem scenario_ofValue_value (s : Scenario) : Scenario.ofValue s.value = .ok s := by
  cases s <;> rfl

theorem parseScenarios_map_value (l : List Scenario) :
    parseScenarios (l.map Scenario.value) = .ok l := by
  induction l with
  | nil => rfl
  | cons x xs ih =>
      simp [parseScenarios, scenario_ofValue_value, ih]

/-- Serialize-then-parse of `matched_scenarios` is the identity away from
the empty list. -/
theorem parseMatched_serializeMatched (m : Option (List Scenario)) (h : m ≠ some []) :
    parseMatched (serializeMatched m) = .ok m := by
  match m with
  | none => rfl
  | some [] => exact absurd rfl h
  | some (x :: xs) =>
      have hps := parseScenarios_map_value (x :: xs)
      simp only [List.map_cons] at hps
      simp only [serializeMatched, parseMatched, List.map_cons, hps]
      rfl

/-- A signal carrying `matched_scenarios = []`, which Python truthiness
serializes as `null`. -/
def sigEmptyMatched : Signal := { sigA with matched_scenarios := some [] }

/-- C10 counterexample: the claim asserts `from_dict (to_dict s) = s` for
every signal, including every state of `matched_scenarios`.  A signal with
`matched_scenarios = []` round-trips to `matched_scenarios = None`
(`to_dict` serializes the empty list as `null` via Python truthiness), so
the reconstructed signal is not equal to the original. -/
theorem c10_counterexample_empty_matched_scenarios :
    Signal.from_dict (Signal.to_dict sigEmptyMatched) =
      .ok { sigEmptyMatched with matched_scenarios := none } ∧
    Signal.from_dict (Signal.to_dict sigEmptyMatched) ≠ .ok sigEmptyMatched := by
  refine ⟨by rfl, ?_⟩
  intro h
  rw [(by rfl : Signal.from_dict (Signal.to_dict sigEmptyMatched) =
    .ok { sigEmptyMatched with matched_scenarios := none })] at h
  have hsig := Except.ok.inj h
  exact Option.noConfusion (congrArg Signal.matched_scenarios hsig)

/-- C10 amended: `from_dict (to_dict s) = s` for every signal whose
`matched_scenarios` is not the empty list (any combination of the optional
M15/M1 indicator fields, a `None` or non-empty `matched_scenarios`, and the
risk fields set or unset). -/
theorem c10_roundtrip_except_empty_matched (s : Signal)
    (h : s.matched_scenarios ≠ some []) :
    Signal.from_dict (Signal.to_dict s) = .ok s := by
  show Signal.from_dict (Signal.to_dict s) = .ok s
  unfold Signal.from_dict
  rw [show (Signal.to_dict s).direction = s.direction.value from rfl,
    show (Signal.to_dict s).scenario = s.scenario.value from rfl,
    show (Signal.to_dict s).matched_scenarios = serializeMatched s.matched_scenarios from rfl,
    direction_ofValue_value, scenario_ofValue_value,
    parseMatched_serializeMatched s.matched_scenarios h]
  rfl

/-- Witness for C10 amended at two concrete signals: `matched_scenarios`
absent, and a two-element `matched_scenarios` with risk fields set. -/
theorem c10_roundtrip_except_empty_matched_witness :
    Signal.from_dict (Signal.to_dict sigA) = .ok sigA ∧
    Signal.from_dict (Signal.to_dict
      { sigA with matched_scenarios := some [.BUY_S1, .BUY_S2],
                  risk_stop_distance := some (9365/27) }) =
    .ok { sigA with matched_scenarios := some [.BUY_S1, .BUY_S2],
                    risk_stop_distance := some (9365/27) } :=
  ⟨c10_roundtrip_except_empty_matched sigA (by decide),
   c10_roundtrip_except_empty_matched _ (by decide)⟩

end TradingSignalBot
